import Mathlib

/-!
Shallow embedding of `src/service-worker.js` (the offline-caching service
worker of the Solo Leveling System PWA) and verification of the spec claims.

Modelling conventions:
* JS strings are Lean `String`s.  `String.startsWith` and substring search
  of the source are re-implemented over `List Char` so that all predicates
  reduce in the kernel.
* A cache generation (a JS `Cache` object) is an association list from
  request URL (the cache key for GET requests) to a stored response
  snapshot.  `cache.put` overwrites last-write-wins, `caches.match` returns
  the stored entry if any.
* The browser cache storage (`caches`) is an association list from cache
  name to cache generation.
* The network (`fetch`) and the fallible cache-storage primitives are an
  oracle environment `Env`: `net` gives the outcome of each request,
  `openOk` says whether `caches.open` succeeds, `putOk` whether
  `cache.put` succeeds.  A JS rejection is `Except.error`.
* Each event handler is a pure function from its inputs and the current
  state to the produced response/effects and the new state; the unawaited
  background `fetchAndCache` call in the cached path contributes its cache
  effect but its outcome never reaches the response, exactly as in the
  source where the returned promise is dropped.
-/

set_option autoImplicit false

namespace SW

/-- Re-implementation of JS `String.prototype.startsWith` over char lists
(kernel-reducible). -/
def charsLead : List Char → List Char → Bool
  | [], _ => true
  | _ :: _, [] => false
  | a :: as, b :: bs => a = b && charsLead as bs

/-- Substring occurrence test, JS `String.prototype.includes`. -/
def charsInside (pat : List Char) : List Char → Bool
  | [] => charsLead pat []
  | c :: rest => charsLead pat (c :: rest) || charsInside pat rest

/-- JS `url.startsWith(pre)`. -/
def strStartsWith (s pre : String) : Bool :=
  charsLead pre.data s.data

/-- JS `url.includes(pat)`. -/
def strIncl (s pat : String) : Bool :=
  charsInside pat.data s.data

/-- The scheme of a URL string: the characters before the first colon.
This is vocabulary of the specification (the source never computes a
scheme; it tests `url.startsWith` with `http`), needed to compare the words
of the spec with the test of the source. -/
def takeUntilColon : List Char → List Char
  | [] => []
  | c :: cs => if c = ':' then [] else c :: takeUntilColon cs

/-- URL scheme as the spec speaks of it. -/
def urlScheme (url : String) : String :=
  ⟨takeUntilColon url.data⟩

/-- A stored/produced response snapshot: status, status text, body. -/
structure Response where
  status : Nat
  statusText : String
  body : String
  deriving DecidableEq, Repr

/-- An intercepted request: method, URL and mode (`navigate` or not). -/
structure Request where
  method : String
  url : String
  mode : String
  deriving DecidableEq, Repr

/-- One cache generation: request-URL keyed stored responses. -/
abbrev Cache := List (String × Response)

/-- JS `cache.match(request)` / `caches.match(request)` against one
generation: first entry stored under the request URL. -/
def cacheMatch (c : Cache) (url : String) : Option Response :=
  (c.find? (fun e => e.1 = url)).map (fun e => e.2)

/-- JS `cache.put(request, response)`: overwrite the entry for the URL. -/
def cachePut (c : Cache) (url : String) (r : Response) : Cache :=
  (url, r) :: c.filter (fun e => e.1 ≠ url)

/-- The constant `CACHE_NAME`, value `solo-leveling-v1.0.0` (line 6). -/
def CACHE_NAME : String := "solo-leveling-v1.0.0"

/-- `ASSETS_TO_CACHE` (lines 9-15), the install seed manifest. -/
def ASSETS_TO_CACHE : List String :=
  ["/",
   "/index.html",
   "/manifest.json",
   "https://fonts.googleapis.com/css2?family=Inter:wght@400;500;600;700&display=swap",
   "https://cdnjs.cloudflare.com/ajax/libs/jspdf/2.5.1/jspdf.umd.min.js"]

/-- Oracle environment for the fallible platform primitives used by the
fetch path: `net` is `fetch`, `openOk` whether `caches.open` resolves,
`putOk` whether `cache.put` resolves (its rejection is unhandled in the
source, observable only as the entry not being stored). -/
structure Env where
  net : Request → Except String Response
  openOk : Bool
  putOk : Bool

/-- The eligibility test of `fetchAndCache` (lines 113-116): own origin
prefix or one of the three allowlisted hosts as a substring. -/
def eligibleUrl (origin url : String) : Bool :=
  strStartsWith url origin ||
  strIncl url "fonts.googleapis.com" ||
  strIncl url "fonts.gstatic.com" ||
  strIncl url "cdnjs.cloudflare.com"

/-- Result of one `fetchAndCache` call: the settled promise, the cache
generation afterwards, and whether an entry was actually stored. -/
structure FAC where
  resp : Except String Response
  cache : Cache
  wrote : Bool
  deriving Repr

/-- `fetchAndCache` (lines 103-130).  `await fetch(request)`; on a 200
response `await caches.open` then (if eligible) an unawaited `cache.put`
of a clone; return the network response.  Any rejection before the
`return` (network failure, or `caches.open` failing) lands in the catch
block, which answers with a previously cached entry when one exists and
otherwise rethrows. -/
def fetchAndCache (env : Env) (origin : String) (cache : Cache) (req : Request) : FAC :=
  match env.net req with
  | .ok response =>
    if response.status = 200 then
      if env.openOk then
        if eligibleUrl origin req.url then
          { resp := .ok response
            cache := if env.putOk then cachePut cache req.url response else cache
            wrote := env.putOk }
        else
          { resp := .ok response, cache := cache, wrote := false }
      else
        -- caches.open rejected: the catch block runs
        match cacheMatch cache req.url with
        | some c => { resp := .ok c, cache := cache, wrote := false }
        | none => { resp := .error "cache open failed", cache := cache, wrote := false }
    else
      { resp := .ok response, cache := cache, wrote := false }
  | .error e =>
    match cacheMatch cache req.url with
    | some c => { resp := .ok c, cache := cache, wrote := false }
    | none => { resp := .error e, cache := cache, wrote := false }

/-- What the fetch listener did with the event: not intercepted at all,
or `respondWith` settled with a response value (`none` models the chain
resolving with `undefined`, as when the `/index.html` fallback misses). -/
inductive FetchResult where
  | passthrough
  | responded (r : Option Response)
  deriving DecidableEq, Repr

/-- Full outcome of one fetch event. -/
structure FetchHandled where
  result : FetchResult
  cache : Cache
  wrote : Bool
  deriving Repr

/-- The fetch listener (lines 61-100).  Non-GET and URLs not starting in
`http` return without `respondWith`.  Otherwise: on a cache hit, answer
the cached entry and drop the `fetchAndCache(event.request)` promise
(only its cache effect persists); on a miss, await `fetchAndCache`; if
the chain rejects, answer `caches.match` of `/index.html` for navigations
and an empty 408 `Offline` response otherwise. -/
def handleFetch (env : Env) (origin : String) (cache : Cache) (req : Request) : FetchHandled :=
  if req.method ≠ "GET" then
    { result := .passthrough, cache := cache, wrote := false }
  else if !(strStartsWith req.url "http") then
    { result := .passthrough, cache := cache, wrote := false }
  else
    match cacheMatch cache req.url with
    | some cached =>
      let bg := fetchAndCache env origin cache req
      { result := .responded (some cached), cache := bg.cache, wrote := bg.wrote }
    | none =>
      let fg := fetchAndCache env origin cache req
      match fg.resp with
      | .ok r => { result := .responded (some r), cache := fg.cache, wrote := fg.wrote }
      | .error _ =>
        if req.mode = "navigate" then
          { result := .responded (cacheMatch fg.cache "/index.html"),
            cache := fg.cache, wrote := fg.wrote }
        else
          { result := .responded (some { status := 408, statusText := "Offline", body := "" }),
            cache := fg.cache, wrote := fg.wrote }

/-- Whether a response would satisfy `Cache.addAll` (only ok-status
responses are stored; any other outcome rejects the whole batch). -/
def respOk (r : Response) : Bool :=
  200 ≤ r.status && r.status < 300

/-- Platform `cache.addAll(urls)`: fetch every URL; atomic all-or-nothing —
if any fetch rejects or yields a non-ok response the whole call rejects
and nothing is stored. -/
def addAll (net : String → Except String Response) : List String → Except String Cache
  | [] => .ok []
  | u :: us =>
    match net u with
    | .error e => .error e
    | .ok r =>
      if respOk r then (addAll net us).map (fun c => (u, r) :: c)
      else .error "addAll: non-ok response"

/-- Observable outcome of the install event. -/
structure InstallResult where
  /-- The freshly populated generation, when `addAll` succeeded. -/
  cacheEntries : Option Cache
  /-- Whether `self.skipWaiting()` was reached. -/
  skipWaitingCalled : Bool
  /-- Whether the promise handed to `event.waitUntil` resolved, i.e. the
  hosting runtime records the install as successful. -/
  waitUntilResolved : Bool
  deriving DecidableEq, Repr

/-- The install listener (lines 18-35): open the current generation,
`cache.addAll(ASSETS_TO_CACHE)`, then `self.skipWaiting()`.  The final
`.catch` logs any error and returns, so the `waitUntil` promise resolves
either way. -/
def handleInstall (net : String → Except String Response) : InstallResult :=
  match addAll net ASSETS_TO_CACHE with
  | .ok entries =>
    { cacheEntries := some entries, skipWaitingCalled := true, waitUntilResolved := true }
  | .error _ =>
    -- the .catch swallows the rejection: no entries, no skipWaiting,
    -- but the chain resolves
    { cacheEntries := none, skipWaitingCalled := false, waitUntilResolved := true }

/-- The browser cache storage: named cache generations. -/
abbrev CacheStore := List (String × Cache)

/-- JS `caches.delete(name)`. -/
def cachesDelete (store : CacheStore) (name : String) : CacheStore :=
  store.filter (fun e => e.1 ≠ name)

/-- Observable outcome of the activate event. -/
structure ActivateResult where
  store : CacheStore
  /-- Whether `self.clients.claim()` ran (it is sequenced after every
  deletion, in the second `.then` of the chain). -/
  claimed : Bool
  deriving Repr

/-- The activate listener (lines 38-58): list all cache names, delete
every one different from `CACHE_NAME`, and only then claim the clients. -/
def handleActivate (store : CacheStore) : ActivateResult :=
  let names := store.map (fun e => e.1)
  let toDelete := names.filter (fun n => n ≠ CACHE_NAME)
  { store := toDelete.foldl (fun acc n => cachesDelete acc n) store
    claimed := true }

/-- A structured message from the host page (`event.data`, possibly null). -/
structure MessageData where
  type : String
  deriving DecidableEq, Repr

/-- Observable outcome of the message event. -/
structure MessageResult where
  skipWaitingCalled : Bool
  store : CacheStore
  deriving Repr

/-- The message listener (lines 133-143): `SKIP_WAITING` calls
`self.skipWaiting()`; `CLEAR_CACHE` deletes the cache named `CACHE_NAME`;
anything else (or a null `event.data`) is ignored. -/
def handleMessage (data : Option MessageData) (store : CacheStore) : MessageResult :=
  let skip :=
    match data with
    | some d => d.type = "SKIP_WAITING"
    | none => false
  let store1 :=
    match data with
    | some d => if d.type = "CLEAR_CACHE" then cachesDelete store CACHE_NAME else store
    | none => store
  { skipWaitingCalled := skip, store := store1 }

/-- A parsed push payload: the recognized optional fields. -/
structure PushPayload where
  title : Option String
  body : Option String
  url : Option String
  deriving DecidableEq, Repr

/-- `event.data` of a push event: `json` is what `event.data.json()`
does — the parsed payload, or a thrown error when the payload is not
valid JSON. -/
structure PushEventData where
  json : Except String PushPayload
  deriving Repr

/-- JS `data.field || fallback` for an optional string field (both a
missing field and an empty string are falsy). -/
def orFalsy (o : Option String) (d : String) : String :=
  match o with
  | some s => if s = "" then d else s
  | none => d

/-- The notification handed to `showNotification`: title plus the options
object built by the push listener. -/
structure ShownNote where
  title : String
  body : String
  icon : String
  badge : String
  dataUrl : String
  actions : List (String × String)
  deriving DecidableEq, Repr

/-- The push listener (lines 173-200).  `Except.error` models the handler
throwing before `event.waitUntil` is reached (as `event.data.json()`
does on a malformed payload); `.ok none` is the early return on a
missing payload; `.ok (some n)` says `event.waitUntil(showNotification)`
was registered to display `n`. -/
def handlePush (d : Option PushEventData) : Except String (Option ShownNote) :=
  match d with
  | none => .ok none
  | some ev =>
    match ev.json with
    | .error e => .error e
    | .ok data =>
      .ok (some
        { title := orFalsy data.title "Solo Leveling System"
          body := orFalsy data.body "Time to study!"
          icon := "/icon-192.png"
          badge := "/icon-192.png"
          dataUrl := orFalsy data.url "/"
          actions := [("open", "Open App"), ("dismiss", "Dismiss")] })

/-- An open page context as seen through `clients.matchAll`: its URL and
whether it exposes `focus` (true for every window client the platform
returns). -/
structure PageClient where
  url : String
  canFocus : Bool
  deriving DecidableEq, Repr

/-- What the notification-click handler did beyond closing. -/
inductive ClickEffect where
  | focused (c : PageClient)
  | openedWindow (url : String)
  | noEffect
  deriving DecidableEq, Repr

/-- Observable outcome of a notification click. -/
structure ClickResult where
  closedNote : Bool
  effect : ClickEffect
  deriving DecidableEq, Repr

/-- The notification-click listener (lines 203-223).
`event.notification.close()` runs first unconditionally.  For action
`open` or a bare body click (empty action), focus the first listed
client whose URL has the agent origin as a substring and which supports
`focus`; otherwise `clients.openWindow` at the notification data url, `/` if falsy,
when `openWindow` is available. -/
def handleNoteClick (origin : String) (openWindowAvailable : Bool)
    (action : String) (noteDataUrl : String) (clientList : List PageClient) : ClickResult :=
  if action = "open" ∨ action = "" then
    match clientList.find? (fun c => strIncl c.url origin && c.canFocus) with
    | some c => { closedNote := true, effect := .focused c }
    | none =>
      if openWindowAvailable then
        { closedNote := true
          effect := .openedWindow (if noteDataUrl = "" then "/" else noteDataUrl) }
      else
        { closedNote := true, effect := .noEffect }
  else
    { closedNote := true, effect := .noEffect }

/-! Concrete fixtures used by witnesses and counterexamples. -/

/-- A network where every fetch rejects. -/
def netOffline : Request → Except String Response := fun _ => .error "offline"

/-- Healthy cache primitives, dead network. -/
def envOffline : Env := { net := netOffline, openOk := true, putOk := true }

/-- A network answering 200 for everything. -/
def netOk : Request → Except String Response :=
  fun _ => .ok { status := 200, statusText := "OK", body := "fresh" }

/-- Healthy primitives, healthy network. -/
def envOk : Env := { net := netOk, openOk := true, putOk := true }

/-- Healthy network but `caches.open` rejects (e.g. quota/storage error). -/
def envOpenFails : Env := { net := netOk, openOk := false, putOk := true }

/-- Sample origin of the agent. -/
def origin0 : String := "https://app.example"

/-- A stored shell entry. -/
def shellResp : Response := { status := 200, statusText := "OK", body := "<html>shell</html>" }

/-! Helper lemmas. -/

/-- If `fetchAndCache` rejects, it has not touched the cache. -/
theorem fetchAndCache_error_cache (env : Env) (origin : String) (cache : Cache)
    (req : Request) (e : String)
    (h : (fetchAndCache env origin cache req).resp = .error e) :
    (fetchAndCache env origin cache req).cache = cache := by
  unfold fetchAndCache at h ⊢
  cases hn : env.net req with
  | ok r =>
    simp only [hn] at h ⊢
    by_cases h200 : r.status = 200 <;> simp only [h200, if_true, if_false, reduceIte] at h ⊢
    · by_cases hop : env.openOk <;> simp only [hop, if_true, if_false, reduceIte] at h ⊢
      · by_cases hel : eligibleUrl origin req.url = true <;>
          simp only [hel, if_true, if_false, reduceIte] at h ⊢ <;> simp_all
      · cases hcm : cacheMatch cache req.url <;> simp [hcm] at h ⊢
  | error e2 =>
    simp only [hn] at h ⊢
    cases hcm : cacheMatch cache req.url <;> simp [hcm] at h ⊢

/-- A write happens in `fetchAndCache` only for an eligible URL after a
status-200 network response. -/
theorem fetchAndCache_wrote (env : Env) (origin : String) (cache : Cache) (req : Request)
    (h : (fetchAndCache env origin cache req).wrote = true) :
    eligibleUrl origin req.url = true ∧ ∃ r, env.net req = .ok r ∧ r.status = 200 := by
  unfold fetchAndCache at h
  cases hn : env.net req with
  | ok r =>
    simp only [hn] at h
    by_cases h200 : r.status = 200 <;> simp only [h200, if_true, if_false, reduceIte] at h
    · by_cases hop : env.openOk <;> simp only [hop, if_true, if_false, reduceIte] at h
      · by_cases hel : eligibleUrl origin req.url = true <;>
          simp only [hel, if_true, if_false, reduceIte] at h
        · exact ⟨hel, r, rfl, h200⟩
        · simp at h
      · cases hcm : cacheMatch cache req.url <;> simp [hcm] at h
    · simp at h
  | error e2 =>
    simp only [hn] at h
    cases hcm : cacheMatch cache req.url <;> simp [hcm] at h

/-- On an ineligible URL `fetchAndCache` never writes and leaves the
cache untouched. -/
theorem fetchAndCache_not_eligible (env : Env) (origin : String) (cache : Cache) (req : Request)
    (h : eligibleUrl origin req.url = false) :
    (fetchAndCache env origin cache req).wrote = false ∧
    (fetchAndCache env origin cache req).cache = cache := by
  unfold fetchAndCache
  cases hn : env.net req with
  | ok r =>
    simp only [hn]
    by_cases h200 : r.status = 200 <;> simp only [h200, if_true, if_false, reduceIte]
    · by_cases hop : env.openOk <;> simp only [hop, if_true, if_false, reduceIte]
      · simp [h]
      · cases hcm : cacheMatch cache req.url <;> simp [hcm]
    · simp
  | error e2 =>
    simp only [hn]
    cases hcm : cacheMatch cache req.url <;> simp [hcm]

/-! Claim theorems. -/

/-- C1: for every intercepted GET http(s) request with a stored cache
entry, the fetch handler answers exactly that entry — the response
component does not depend on the environment (network success or
failure) — while the unawaited background `fetchAndCache` contributes
only its cache effect. -/
theorem C1_cached_entry_served_with_background_refresh
    (env : Env) (origin : String) (cache : Cache) (req : Request) (r : Response)
    (hm : req.method = "GET") (hu : strStartsWith req.url "http" = true)
    (hc : cacheMatch cache req.url = some r) :
    handleFetch env origin cache req =
      { result := .responded (some r)
        cache := (fetchAndCache env origin cache req).cache
        wrote := (fetchAndCache env origin cache req).wrote } := by
  unfold handleFetch
  simp [hm, hu, hc]

/-- C1 witness: a concrete cached entry is served even though the
network is down, and the background refresh left the cache as it was. -/
theorem C1_witness :
    handleFetch envOffline origin0 [("https://app.example/a", shellResp)]
        ⟨"GET", "https://app.example/a", "cors"⟩ =
      { result := .responded (some shellResp)
        cache := (fetchAndCache envOffline origin0 [("https://app.example/a", shellResp)]
          ⟨"GET", "https://app.example/a", "cors"⟩).cache
        wrote := (fetchAndCache envOffline origin0 [("https://app.example/a", shellResp)]
          ⟨"GET", "https://app.example/a", "cors"⟩).wrote } :=
  C1_cached_entry_served_with_background_refresh envOffline origin0
    [("https://app.example/a", shellResp)] ⟨"GET", "https://app.example/a", "cors"⟩
    shellResp rfl (by decide) (by decide)

/-- C2: when the interception pipeline rejects (cache miss and the
foreground `fetchAndCache` fails), a navigation request is answered with
the cached `/index.html` shell and every other request with the empty
408 `Offline` response. -/
theorem C2_failure_fallback
    (env : Env) (origin : String) (cache : Cache) (req : Request) (e : String) (shell : Response)
    (hm : req.method = "GET") (hu : strStartsWith req.url "http" = true)
    (hmiss : cacheMatch cache req.url = none)
    (herr : (fetchAndCache env origin cache req).resp = .error e)
    (hshell : cacheMatch cache "/index.html" = some shell) :
    (handleFetch env origin cache req).result =
      .responded (some (if req.mode = "navigate" then shell
        else { status := 408, statusText := "Offline", body := "" })) := by
  have hcache := fetchAndCache_error_cache env origin cache req e herr
  unfold handleFetch
  simp only [hm, hu, hmiss]
  by_cases hnav : req.mode = "navigate" <;>
    simp [herr, hcache, hshell, hnav]

/-- C2 witness: with the shell cached, a failing navigation gets the
shell and a failing non-navigation request gets the 408 stub. -/
theorem C2_witness :
    ((handleFetch envOffline origin0 [("/index.html", shellResp)]
        ⟨"GET", "https://app.example/x", "navigate"⟩).result =
      .responded (some shellResp)) ∧
    ((handleFetch envOffline origin0 [("/index.html", shellResp)]
        ⟨"GET", "https://app.example/x", "cors"⟩).result =
      .responded (some { status := 408, statusText := "Offline", body := "" })) := by
  constructor
  · have h := C2_failure_fallback envOffline origin0 [("/index.html", shellResp)]
      ⟨"GET", "https://app.example/x", "navigate"⟩ "offline" shellResp
      rfl (by decide) (by decide) rfl (by decide)
    simpa using h
  · have h := C2_failure_fallback envOffline origin0 [("/index.html", shellResp)]
      ⟨"GET", "https://app.example/x", "cors"⟩ "offline" shellResp
      rfl (by decide) (by decide) rfl (by decide)
    simpa using h

/-- C3: a cache write happens only after a status-200 network response
for a URL in the eligibility set, and for ineligible URLs the cache is
never touched, whatever the fetch outcome. -/
theorem C3_write_only_eligible_200 (env : Env) (origin : String) (cache : Cache) (req : Request) :
    ((handleFetch env origin cache req).wrote = true →
      eligibleUrl origin req.url = true ∧ ∃ r, env.net req = .ok r ∧ r.status = 200) ∧
    (eligibleUrl origin req.url = false →
      (handleFetch env origin cache req).wrote = false ∧
      (handleFetch env origin cache req).cache = cache) := by
  constructor
  · intro h
    apply fetchAndCache_wrote env origin cache req
    unfold handleFetch at h
    by_cases hm : req.method = "GET"
    · by_cases hu : strStartsWith req.url "http" = true
      · simp only [hm, hu] at h
        cases hc : cacheMatch cache req.url <;> simp only [hc] at h
        · cases hr : (fetchAndCache env origin cache req).resp <;> simp_all
          by_cases hnav : req.mode = "navigate" <;> simp_all
        · exact h
      · simp_all
    · simp_all
  · intro h
    have hfac := fetchAndCache_not_eligible env origin cache req h
    unfold handleFetch
    by_cases hm : req.method = "GET"
    · by_cases hu : strStartsWith req.url "http" = true
      · simp only [hm, hu]
        cases hc : cacheMatch cache req.url <;> simp only [hc]
        · cases hr : (fetchAndCache env origin cache req).resp <;> simp_all
          by_cases hnav : req.mode = "navigate" <;> simp_all
        · simp [hfac.1, hfac.2]
      · simp_all
    · simp_all

/-- C3 witness: a successfully fetched request to a host outside the
eligibility set leaves the cache empty and records no write. -/
theorem C3_witness :
    (handleFetch envOk origin0 [] ⟨"GET", "https://other.example/a", "cors"⟩).wrote = false ∧
    (handleFetch envOk origin0 [] ⟨"GET", "https://other.example/a", "cors"⟩).cache = [] :=
  (C3_write_only_eligible_200 envOk origin0 [] ⟨"GET", "https://other.example/a", "cors"⟩).2
    (by decide)

/-- Surviving an iterated `caches.delete` means surviving every single
deletion. -/
theorem mem_foldl_cachesDelete (ds : List String) (s : CacheStore) (e : String × Cache)
    (he : e ∈ ds.foldl (fun acc n => cachesDelete acc n) s) :
    e ∈ s ∧ e.1 ∉ ds := by
  induction ds generalizing s with
  | nil => simpa using he
  | cons d ds ih =>
    simp only [List.foldl_cons] at he
    obtain ⟨h1, h2⟩ := ih (cachesDelete s d) he
    unfold cachesDelete at h1
    rw [List.mem_filter] at h1
    have hd : e.1 ≠ d := by simpa using h1.2
    simp [h1.1, hd, h2]

/-- C4: every cache generation still present after the activate handler
is the current one (`CACHE_NAME`), and `clients.claim` ran (it is
sequenced after the deletions in the handler). -/
theorem C4_only_current_generation_survives (store : CacheStore) (e : String × Cache)
    (he : e ∈ (handleActivate store).store) :
    e.1 = CACHE_NAME ∧ (handleActivate store).claimed = true := by
  refine ⟨?_, rfl⟩
  unfold handleActivate at he
  simp only at he
  obtain ⟨hmem, hnotdel⟩ := mem_foldl_cachesDelete _ _ _ he
  by_contra hne
  apply hnotdel
  rw [List.mem_filter]
  constructor
  · exact List.mem_map_of_mem (fun x => x.1) hmem
  · simpa using hne

/-- C4 witness: activating with a stale generation alongside the current
one leaves the current generation and claims the clients. -/
theorem C4_witness :
    ((CACHE_NAME, ([("/", shellResp)] : Cache)).1 = CACHE_NAME ∧
      (handleActivate [(CACHE_NAME, [("/", shellResp)]),
        ("solo-leveling-v0.9.0", [])]).claimed = true) :=
  C4_only_current_generation_survives
    [(CACHE_NAME, [("/", shellResp)]), ("solo-leveling-v0.9.0", [])]
    (CACHE_NAME, [("/", shellResp)]) (by decide)

/-- C5 counterexample: the guard is `url.startsWith` with `http`, not a
scheme check — a GET request for `httpfake://internal/page`, whose
scheme is neither `http` nor `https`, is still intercepted and answered
rather than passed through untouched. -/
theorem C5_counterexample :
    urlScheme "httpfake://internal/page" ≠ "http" ∧
    urlScheme "httpfake://internal/page" ≠ "https" ∧
    (handleFetch envOffline origin0 []
      ⟨"GET", "httpfake://internal/page", "cors"⟩).result ≠ .passthrough := by
  decide

/-- C5 (amended): the interceptor responds to exactly those requests
whose method is GET and whose URL string starts with `http` (hence to
all http/https URLs, but also to any other scheme beginning with
`http`); every other request is passed through untouched. -/
theorem C5_amended_guard (env : Env) (origin : String) (cache : Cache) (req : Request) :
    ((req.method = "GET" ∧ strStartsWith req.url "http" = true) →
      (handleFetch env origin cache req).result ≠ .passthrough) ∧
    (¬(req.method = "GET" ∧ strStartsWith req.url "http" = true) →
      handleFetch env origin cache req =
        { result := .passthrough, cache := cache, wrote := false }) := by
  constructor
  · rintro ⟨hm, hu⟩
    unfold handleFetch
    simp only [hm, hu]
    cases hc : cacheMatch cache req.url <;> simp only [hc]
    · cases hr : (fetchAndCache env origin cache req).resp <;> simp_all
      by_cases hnav : req.mode = "navigate" <;> simp_all
    · simp
  · intro h
    unfold handleFetch
    by_cases hm : req.method = "GET"
    · have hu : ¬ strStartsWith req.url "http" = true := fun hu => h ⟨hm, hu⟩
      simp [hm, hu]
    · simp [hm]

/-- C5 witness (amended claim): a GET http request is intercepted and a
POST to the same URL is passed through with the cache untouched. -/
theorem C5_witness :
    ((handleFetch envOffline origin0 [] ⟨"GET", "https://app.example/a", "cors"⟩).result ≠
      .passthrough) ∧
    handleFetch envOffline origin0 [] ⟨"POST", "https://app.example/a", "cors"⟩ =
      { result := .passthrough, cache := [], wrote := false } :=
  ⟨(C5_amended_guard envOffline origin0 [] ⟨"GET", "https://app.example/a", "cors"⟩).1
      ⟨rfl, by decide⟩,
   (C5_amended_guard envOffline origin0 [] ⟨"POST", "https://app.example/a", "cors"⟩).2
      (by decide)⟩

/-- A network where one seed resource of the install manifest is
unreachable and everything else succeeds. -/
def netSeedFail : String → Except String Response :=
  fun u => if u = "/index.html" then .error "unreachable"
           else .ok { status := 200, statusText := "OK", body := "x" }

/-- C6: when a seed resource fails, the install handler stores nothing
and never reaches `skipWaiting`, yet the promise given to
`event.waitUntil` still resolves — the trailing `.catch` swallows the
rejection, so the hosting runtime records a successful install instead
of the installation error the spec requires. -/
theorem C6_install_failure_swallowed :
    (handleInstall netSeedFail).waitUntilResolved = true ∧
    (handleInstall netSeedFail).skipWaitingCalled = false ∧
    (handleInstall netSeedFail).cacheEntries = none := by
  decide

/-- A populated cache storage holding the current generation. -/
def store0 : CacheStore := [(CACHE_NAME, [("/", shellResp)])]

/-- C7 counterexample: the message handler compares against the literal
`CLEAR_CACHE`, so the message `{type:"clear-cache"}` of the claim is
silently ignored — the populated current generation survives and a
subsequent read still yields its entry. -/
theorem C7_counterexample :
    ((handleMessage (some ⟨"clear-cache"⟩) store0).store.find?
        (fun e => e.1 = CACHE_NAME)) = some (CACHE_NAME, [("/", shellResp)]) ∧
    cacheMatch [("/", shellResp)] "/" = some shellResp := by
  decide

/-- C7 (amended): the control message `{type:"CLEAR_CACHE"}` deletes the
entire current cache generation — afterwards no cache named `CACHE_NAME`
exists, so any read against it yields no entries until repopulated. -/
theorem C7_amended_clear_cache (store : CacheStore) :
    ((handleMessage (some ⟨"CLEAR_CACHE"⟩) store).store.find?
        (fun e => e.1 = CACHE_NAME)) = none := by
  unfold handleMessage cachesDelete
  simp only [reduceIte]
  rw [List.find?_eq_none]
  intro e he
  rw [List.mem_filter] at he
  simpa using he.2

/-- The request used by the C8 counterexample and witness. -/
def req8 : Request := { method := "GET", url := "https://app.example/data", mode := "cors" }

/-- C8 counterexample: the network fetch succeeds with status 200, but
`caches.open` rejecting lands in the catch block; with no cached entry
the error propagates and the caller receives the 408 offline stub, not
the successful network response. -/
theorem C8_counterexample :
    netOk req8 = .ok { status := 200, statusText := "OK", body := "fresh" } ∧
    (handleFetch envOpenFails origin0 [] req8).result =
      .responded (some { status := 408, statusText := "Offline", body := "" }) :=
  ⟨rfl, by decide⟩

/-- C8 (amended): after a status-200 fetch, a failure of the unawaited
`cache.put` never changes the settled response; but a failure of
`caches.open` is caught by the network-failure fallback — the caller
receives a previously cached entry when one exists and otherwise the
rejection propagates (so the successful network response is lost). -/
theorem C8_amended_write_failure (env : Env) (origin : String) (cache : Cache) (req : Request)
    (r : Response) (hnet : env.net req = .ok r) (h200 : r.status = 200) :
    ((fetchAndCache { env with putOk := false } origin cache req).resp =
      (fetchAndCache { env with putOk := true } origin cache req).resp) ∧
    (env.openOk = false →
      (fetchAndCache env origin cache req).resp =
        match cacheMatch cache req.url with
        | some c => .ok c
        | none => .error "cache open failed") := by
  constructor
  · unfold fetchAndCache
    simp only [hnet, h200, if_true, reduceIte]
    by_cases hop : env.openOk <;> by_cases hel : eligibleUrl origin req.url = true <;>
      simp [hop, hel]
  · intro hop
    unfold fetchAndCache
    simp only [hnet, h200, hop, if_true, if_false, reduceIte]
    cases hcm : cacheMatch cache req.url <;> simp [hcm]

/-- C8 witness (amended claim): at a concrete 200 fetch, the response is
the same whether the put succeeds or fails, and with `caches.open`
rejecting over an empty cache the call settles with the open error. -/
theorem C8_witness :
    ((fetchAndCache { envOpenFails with putOk := false } origin0 [] req8).resp =
      (fetchAndCache { envOpenFails with putOk := true } origin0 [] req8).resp) ∧
    (fetchAndCache envOpenFails origin0 [] req8).resp = .error "cache open failed" := by
  have h := C8_amended_write_failure envOpenFails origin0 [] req8
    { status := 200, statusText := "OK", body := "fresh" } rfl rfl
  exact ⟨h.1, h.2 rfl⟩

/-- When every listed client supports `focus` (as every window client
the platform returns does), the search of the handler coincides with a plain
origin-match search. -/
theorem find?_focusable (origin : String) (cs : List PageClient)
    (hfoc : ∀ c ∈ cs, c.canFocus = true) :
    cs.find? (fun c => strIncl c.url origin && c.canFocus) =
      cs.find? (fun c => strIncl c.url origin) := by
  induction cs with
  | nil => rfl
  | cons c cs ih =>
    have hc : c.canFocus = true := hfoc c (List.mem_cons_self c cs)
    have ih2 := ih (fun x hx => hfoc x (List.mem_cons_of_mem c hx))
    by_cases hi : strIncl c.url origin = true <;>
      simp [List.find?_cons, hi, hc, ih2]

/-- C9: for a click whose action is `open` or absent, the handler closes
the notification and then either focuses the first open page context
whose URL carries the agent origin, or, when none exists, opens a new
context at the notification target URL (root when empty). -/
theorem C9_open_click_focus_or_open (origin action url : String) (cs : List PageClient)
    (hact : action = "open" ∨ action = "")
    (hfoc : ∀ c ∈ cs, c.canFocus = true) :
    (handleNoteClick origin true action url cs).closedNote = true ∧
    ((∃ c, cs.find? (fun c => strIncl c.url origin) = some c ∧
        (handleNoteClick origin true action url cs).effect = .focused c) ∨
      (cs.find? (fun c => strIncl c.url origin) = none ∧
        (handleNoteClick origin true action url cs).effect =
          .openedWindow (if url = "" then "/" else url))) := by
  unfold handleNoteClick
  rw [if_pos hact, find?_focusable origin cs hfoc]
  cases hf : cs.find? (fun c => strIncl c.url origin) with
  | some c => exact ⟨rfl, .inl ⟨c, rfl, rfl⟩⟩
  | none => exact ⟨rfl, .inr ⟨rfl, rfl⟩⟩

/-- C9 witness: a push carrying url `/session` yields a notification
whose stored target is `/session`, and an `open` click on it with no
open page contexts closes the notification and opens a window at
`/session`. -/
theorem C9_witness :
    (handlePush (some ⟨.ok ⟨some "Reminder", some "Study now", some "/session"⟩⟩) =
      .ok (some { title := "Reminder"
                  body := "Study now"
                  icon := "/icon-192.png"
                  badge := "/icon-192.png"
                  dataUrl := "/session"
                  actions := [("open", "Open App"), ("dismiss", "Dismiss")] })) ∧
    (handleNoteClick origin0 true "open" "/session" []).closedNote = true ∧
    (handleNoteClick origin0 true "open" "/session" []).effect = .openedWindow "/session" := by
  have h := C9_open_click_focus_or_open origin0 "open" "/session" [] (Or.inl rfl)
    (by intro c hc; simp at hc)
  refine ⟨rfl, h.1, ?_⟩
  rcases h.2 with ⟨c, hc, _⟩ | ⟨_, he⟩
  · simp at hc
  · simpa using he

/-- C10: a push event whose payload is present but not parseable as JSON
makes the handler throw before anything is registered on the event wait
handle — no notification is displayed — while a well-formed payload with
all optional fields missing falls back to the fixed defaults. -/
theorem C10_malformed_push_throws (ev : PushEventData) (e : String)
    (h : ev.json = .error e) :
    handlePush (some ev) = .error e ∧
    handlePush (some ⟨.ok ⟨none, none, none⟩⟩) =
      .ok (some { title := "Solo Leveling System"
                  body := "Time to study!"
                  icon := "/icon-192.png"
                  badge := "/icon-192.png"
                  dataUrl := "/"
                  actions := [("open", "Open App"), ("dismiss", "Dismiss")] }) := by
  constructor
  · obtain ⟨j⟩ := ev
    cases j with
    | error a =>
      simp only [Except.error.injEq] at h
      subst h
      rfl
    | ok p => simp at h
  · rfl

/-- C10 witness: a concrete malformed payload settles the handler with
the parse error and no displayed notification. -/
theorem C10_witness :
    handlePush (some ⟨.error "SyntaxError: unexpected token"⟩) =
      .error "SyntaxError: unexpected token" ∧
    handlePush (some ⟨.ok ⟨none, none, none⟩⟩) =
      .ok (some { title := "Solo Leveling System"
                  body := "Time to study!"
                  icon := "/icon-192.png"
                  badge := "/icon-192.png"
                  dataUrl := "/"
                  actions := [("open", "Open App"), ("dismiss", "Dismiss")] }) :=
  C10_malformed_push_throws ⟨.error "SyntaxError: unexpected token"⟩
    "SyntaxError: unexpected token" rfl

end SW

